import Mathlib

/-!
Verification of the core logic of the thyroid-cancer recurrence predictor:
the decision policy, the high-risk rule, the categorical encoder, the
history ledger and its persistence, and the analytics comparison.

Each definition is a shallow embedding of the corresponding Python
function, with Python floats modelled as exact rationals (ℚ), Python
dicts used as encoder tables modelled as ordered association lists, and
fallible operations (dict lookup, DataFrame column access) modelled with
Option/Except.
-/

namespace Thyroid

/-- The three outcome categories produced by the decision thresholds in
`run_prediction` (prediction.py). -/
inductive Outcome where
  | recurrenceLikely
  | borderline
  | noRecurrenceExpected
deriving DecidableEq, Repr

/-- The user-facing label attached to each outcome in `run_prediction`
(prediction.py lines 123-132), emoji prefix included. -/
def Outcome.label : Outcome → String
  | .recurrenceLikely => "✔️ Recurrence Likely"
  | .borderline => "⚠️ Borderline"
  | .noRecurrenceExpected => "❌ No Recurrence Expected"

/-- Decision thresholds of `run_prediction` (prediction.py lines 123-132):
`if conf_yes >= 0.5 or (conf_yes >= 0.35 and high_risk == 1)` then
"Recurrence Likely", `elif 0.30 < conf_yes < 0.50` then "Borderline",
else "No Recurrence Expected". -/
def decisionPolicy (conf_yes : ℚ) (high_risk : ℕ) : Outcome :=
  if conf_yes ≥ 1/2 ∨ (conf_yes ≥ 35/100 ∧ high_risk = 1) then
    Outcome.recurrenceLikely
  else if 30/100 < conf_yes ∧ conf_yes < 50/100 then
    Outcome.borderline
  else
    Outcome.noRecurrenceExpected

/-- `_is_high_risk` (prediction.py line 52):
`1 if (stage_str in ["IVA", "IVB"] or m_str == "M1") else 0`.
It takes only the raw stage and metastasis strings; the model's
probability output is not an input. -/
def is_high_risk (stage_str m_str : String) : ℕ :=
  if stage_str ∈ ["IVA", "IVB"] ∨ m_str = "M1" then 1 else 0

/-! ### Category encoder (ui_inputs.py) -/

/-- `GENDER_MAP` (ui_inputs.py line 5); Python dicts preserve insertion
order, so each table is an ordered association list. -/
def GENDER_MAP : List (String × ℕ) := [("F", 0), ("M", 1)]

/-- `YN_MAP` (ui_inputs.py line 6). -/
def YN_MAP : List (String × ℕ) := [("No", 0), ("Yes", 1)]

/-- `THYROID_FUNC_MAP` (ui_inputs.py lines 7-10). -/
def THYROID_FUNC_MAP : List (String × ℕ) :=
  [("Euthyroid", 0), ("Clinical Hyperthyroidism", 1),
   ("Clinical Hypothyroidism", 2), ("Subclinical Hyperthyroidism", 3),
   ("Subclinical Hypothyroidism", 4)]

/-- `PHYSICAL_EXAM_MAP` (ui_inputs.py lines 11-14). -/
def PHYSICAL_EXAM_MAP : List (String × ℕ) :=
  [("Single nodular goiter-left", 0), ("Multinodular goiter", 1),
   ("Single nodular goiter-right", 2), ("Normal", 3), ("Diffuse goiter", 4)]

/-- `ADENOPATHY_MAP` (ui_inputs.py line 15). -/
def ADENOPATHY_MAP : List (String × ℕ) :=
  [("No", 0), ("Right", 1), ("Extensive", 2), ("Left", 3),
   ("Bilateral", 4), ("Posterior", 5)]

/-- `PATHOLOGY_MAP` (ui_inputs.py line 16). -/
def PATHOLOGY_MAP : List (String × ℕ) :=
  [("Micropapillary", 0), ("Papillary", 1), ("Follicular", 2),
   ("Hurthel cell", 3)]

/-- `FOCALITY_MAP` (ui_inputs.py line 17). -/
def FOCALITY_MAP : List (String × ℕ) := [("Uni-Focal", 0), ("Multi-Focal", 1)]

/-- `RISK_MAP` (ui_inputs.py line 18). -/
def RISK_MAP : List (String × ℕ) :=
  [("Low", 0), ("Intermediate", 1), ("High", 2)]

/-- `T_MAP` (ui_inputs.py line 19). -/
def T_MAP : List (String × ℕ) :=
  [("T1a", 0), ("T1b", 1), ("T2", 2), ("T3a", 3), ("T3b", 4),
   ("T4a", 5), ("T4b", 6)]

/-- `N_MAP` (ui_inputs.py line 20). -/
def N_MAP : List (String × ℕ) := [("N0", 0), ("N1b", 1), ("N1a", 2)]

/-- `M_MAP` (ui_inputs.py line 21). -/
def M_MAP : List (String × ℕ) := [("M0", 0), ("M1", 1)]

/-- `STAGE_MAP` (ui_inputs.py line 22). -/
def STAGE_MAP : List (String × ℕ) :=
  [("I", 0), ("II", 1), ("III", 2), ("IVA", 3), ("IVB", 4)]

/-- `RESPONSE_MAP` (ui_inputs.py line 23). -/
def RESPONSE_MAP : List (String × ℕ) :=
  [("Indeterminate", 0), ("Excellent", 1), ("Structural Incomplete", 2),
   ("Biochemical Incomplete", 3)]

/-- `_encode` (ui_inputs.py line 45): `mapping[val]`, a Python dict
lookup; a value absent from the table raises KeyError, modelled as
`none`. -/
def encode (val : String) : List (String × ℕ) → Option ℕ
  | [] => none
  | (k, c) :: rest => if val = k then some c else encode val rest

/-- The key list of an encoder table: the field's enumeration, in the
order the selectbox offers it (`list(MAP.keys())` in ui_inputs.py). -/
def keysOf (m : List (String × ℕ)) : List String := m.map Prod.fst

/-- Position of a value in an enumeration (first occurrence). -/
def idxIn (val : String) : List String → ℕ
  | [] => 0
  | k :: rest => if val = k then 0 else idxIn val rest + 1

/-- The raw values collected by `render_input_form` (ui_inputs.py
lines 183-192): free-text name, bounded age, and the fifteen
categorical fields. -/
structure FormValues where
  name : String
  age : ℕ
  gender : String
  smoking : String
  hx_smoking : String
  hx_radiotherapy : String
  thyroid_func : String
  physical_exam : String
  adenopathy : String
  pathology : String
  focality : String
  risk : String
  T : String
  N : String
  M : String
  stage : String
  response : String
deriving DecidableEq, Repr

/-- Every categorical value belongs to its field's enumeration (the
selectbox option lists of render_input_form). -/
def ValidForm (v : FormValues) : Prop :=
  v.gender ∈ keysOf GENDER_MAP ∧ v.smoking ∈ keysOf YN_MAP
  ∧ v.hx_smoking ∈ keysOf YN_MAP ∧ v.hx_radiotherapy ∈ keysOf YN_MAP
  ∧ v.thyroid_func ∈ keysOf THYROID_FUNC_MAP
  ∧ v.physical_exam ∈ keysOf PHYSICAL_EXAM_MAP
  ∧ v.adenopathy ∈ keysOf ADENOPATHY_MAP
  ∧ v.pathology ∈ keysOf PATHOLOGY_MAP
  ∧ v.focality ∈ keysOf FOCALITY_MAP ∧ v.risk ∈ keysOf RISK_MAP
  ∧ v.T ∈ keysOf T_MAP ∧ v.N ∈ keysOf N_MAP ∧ v.M ∈ keysOf M_MAP
  ∧ v.stage ∈ keysOf STAGE_MAP ∧ v.response ∈ keysOf RESPONSE_MAP

/-- Encoding a sequence of (value, table) pairs in order; any failing
lookup aborts the whole row (KeyError propagates). -/
def encodePairs : List (String × List (String × ℕ)) → Option (List ℕ)
  | [] => some []
  | (v, m) :: rest =>
      match encode v m, encodePairs rest with
      | some c, some cs => some (c :: cs)
      | _, _ => none

/-- The fifteen categorical fields with their tables, in the exact order
of the `encoded_row` literal (ui_inputs.py lines 162-179). -/
def fieldTable (v : FormValues) : List (String × List (String × ℕ)) :=
  [(v.gender, GENDER_MAP), (v.smoking, YN_MAP), (v.hx_smoking, YN_MAP),
   (v.hx_radiotherapy, YN_MAP), (v.thyroid_func, THYROID_FUNC_MAP),
   (v.physical_exam, PHYSICAL_EXAM_MAP), (v.adenopathy, ADENOPATHY_MAP),
   (v.pathology, PATHOLOGY_MAP), (v.focality, FOCALITY_MAP),
   (v.risk, RISK_MAP), (v.T, T_MAP), (v.N, N_MAP), (v.M, M_MAP),
   (v.stage, STAGE_MAP), (v.response, RESPONSE_MAP)]

/-- The `encoded_row` assembly (ui_inputs.py lines 162-179): age raw
first, then the fifteen encoded categorical fields in the exact trained
order. A lookup failure anywhere aborts the whole row. -/
def encoded_row (v : FormValues) : Option (List ℕ) :=
  (encodePairs (fieldTable v)).map fun codes => v.age :: codes

/-! ### Rounding and the prediction record (prediction.py) -/

/-- Round a rational to the nearest integer, ties to even: the rounding
of Python's `round` builtin. -/
def roundHalfEven (y : ℚ) : ℤ :=
  if y - ⌊y⌋ < 1/2 then ⌊y⌋
  else if 1/2 < y - ⌊y⌋ then ⌊y⌋ + 1
  else if ⌊y⌋ % 2 = 0 then ⌊y⌋ else ⌊y⌋ + 1

/-- Python `round(x, 2)` (prediction.py lines 144-145). -/
def pyRound2 (x : ℚ) : ℚ := (roundHalfEven (x * 100) : ℚ) / 100

/-- One row of the session history: the dict built in run_prediction
lines 140-149. Confidences are stored already rounded to 2 decimals. -/
structure Record where
  sessionId : String
  timestamp : String
  name : String
  confNo : ℚ
  confYes : ℚ
  prediction : String
  risk : String
  highRisk : ℕ
deriving DecidableEq, Repr

/-- The record appended by run_prediction (prediction.py lines 138-149).
`historyLen` is the length of the session history before the append; an
empty (falsy) name is replaced by "Patient {len(history)+1}". -/
def mkRow (session_id timestamp raw_name raw_risk : String)
    (conf_no conf_yes : ℚ) (result : Outcome) (high_risk : ℕ)
    (historyLen : ℕ) : Record :=
  { sessionId := session_id
    timestamp := timestamp
    name := if raw_name = "" then "Patient " ++ toString (historyLen + 1)
            else raw_name
    confNo := pyRound2 conf_no
    confYes := pyRound2 conf_yes
    prediction := result.label
    risk := raw_risk
    highRisk := high_risk }

/-! ### Persistence (prediction.py) and loading (analytics.py) -/

/-- One cell of a persisted CSV file / pandas DataFrame: a string, a
float (modelled as ℚ) or a non-negative integer. pandas `to_csv`
followed by `read_csv` preserves these values. -/
inductive Cell where
  | str (v : String)
  | num (v : ℚ)
  | nat (v : ℕ)
deriving DecidableEq, Repr

/-- The fixed column order of the persisted session file: the key order
of the record dict in run_prediction (prediction.py lines 140-149),
which `pd.DataFrame` keeps as the column order. -/
def csvHeader : List String :=
  ["Session ID", "Timestamp", "Name", "Confidence_No", "Confidence_Yes",
   "Prediction", "Risk", "HighRisk"]

/-- One data row of the persisted file, in the fixed schema order. -/
def recordToRow (r : Record) : List Cell :=
  [Cell.str r.sessionId, Cell.str r.timestamp, Cell.str r.name,
   Cell.num r.confNo, Cell.num r.confYes, Cell.str r.prediction,
   Cell.str r.risk, Cell.nat r.highRisk]

/-- `_save_history_to_csv` (prediction.py lines 54-78): an empty history
writes nothing (`if not history_rows: return`); otherwise the FULL
current history is serialized as one header row plus one data row per
record — `pd.DataFrame(history_rows).to_csv(...)` rewrites the file
whole, it does not append. -/
def save_history_to_csv (history : List Record) : Option (List (List Cell)) :=
  if history.isEmpty then none
  else some ((csvHeader.map Cell.str) :: history.map recordToRow)

/-- Parsing one data row of a persisted file back into a record
(`pd.read_csv` in show_analytics). -/
def parseRow : List Cell → Option Record
  | [Cell.str sid, Cell.str ts, Cell.str nm, Cell.num cn, Cell.num cy,
     Cell.str pr, Cell.str rk, Cell.nat hrk] =>
      some ⟨sid, ts, nm, cn, cy, pr, rk, hrk⟩
  | _ => none

/-- Parsing every data row; any malformed row fails the whole load. -/
def parseRows : List (List Cell) → Option (List Record)
  | [] => some []
  | row :: rest =>
      match parseRow row, parseRows rest with
      | some r, some t => some (r :: t)
      | _, _ => none

/-- Loading a persisted session file back into records: the header must
be the fixed schema, the data rows are parsed in order. -/
def loadHistory (csv : List (List Cell)) : Option (List Record) :=
  match csv with
  | [] => none
  | header :: rows =>
      if header = csvHeader.map Cell.str then parseRows rows else none

/-! ### Narration (utils/narration.py) -/

/-- Settings passed from the form (ui_inputs.py line 191). -/
structure NarrationConfig where
  enabled : Bool
  lang : String
  voice : String
deriving DecidableEq, Repr

/-- What the narration environment does when asked to speak: the body of
narrate_result can raise (missing voice engine, audio device, network
for speech synthesis) or succeed; an oracle parameter of the model. -/
inductive NarrationOutcome where
  | success
  | failure (msg : String)
deriving DecidableEq, Repr

/-- The body of `narrate_result` inside the `try:` block
(narration.py lines 38-76): it either completes or raises. -/
def narrationBody (outcome : NarrationOutcome) : Except String Unit :=
  match outcome with
  | NarrationOutcome.success => Except.ok ()
  | NarrationOutcome.failure msg => Except.error msg

/-- `narrate_result` (narration.py lines 37-79): the whole body is
wrapped in `try/except Exception`, which prints "Narration error:" and
the message; the function always returns normally, yielding only the
logged message. -/
def narrate_result (outcome : NarrationOutcome) : Option String :=
  match narrationBody outcome with
  | Except.ok _ => none
  | Except.error e => some ("Narration error: " ++ e)

/-! ### The prediction pipeline (prediction.py, main.py) -/

/-- Inputs to one Predict click: the model's probability pair (the
classifier is an external black box), the raw form values, the narration
settings and environment outcome, and the session id and timestamp
strings generated at click time. -/
structure PredictInputs where
  proba_no : ℚ
  proba_yes : ℚ
  raw : FormValues
  narrationCfg : NarrationConfig
  narrationOutcome : NarrationOutcome
  session_id : String
  timestamp : String

/-- Everything observable after one Predict click. -/
structure PredictOutput where
  result : Outcome
  history : List Record
  savedFile : Option (List (List Cell))
  narrationLog : Option String

/-- `run_prediction` (prediction.py lines 111-163) after the Predict
click: derive high_risk from the raw stage and M strings, apply the
decision thresholds to obtain the result, append the record built by
`mkRow` to the history, narrate if enabled (the reassignment of the
local `result` variable in the narration branch happens after the row
was built and does not touch the record), and persist the full updated
history. -/
def run_prediction (inp : PredictInputs) (history : List Record) :
    PredictOutput :=
  let conf_no := inp.proba_no
  let conf_yes := inp.proba_yes
  let high_risk := is_high_risk inp.raw.stage inp.raw.M
  let result := decisionPolicy conf_yes high_risk
  let row := mkRow inp.session_id inp.timestamp inp.raw.name inp.raw.risk
    conf_no conf_yes result high_risk history.length
  let history2 := history ++ [row]
  let log := if inp.narrationCfg.enabled
             then narrate_result inp.narrationOutcome else none
  { result := result
    history := history2
    savedFile := save_history_to_csv history2
    narrationLog := log }

/-- The full prediction path as wired in main.py: `render_input_form`
encodes the form first (raising KeyError on any value outside its
table), and only on success does `run_prediction` run. A lookup failure
yields no output and leaves the session history unchanged. -/
def predictSession (inp : PredictInputs) (history : List Record) :
    Option PredictOutput × List Record :=
  match encoded_row inp.raw with
  | none => (none, history)
  | some _ =>
      let out := run_prediction inp history
      (some out, out.history)

/-! ### Analytics (analytics.py) -/

/-- Whether a filename has the ".csv" extension
(`f.endswith(".csv")` in analytics.py line 27). -/
def endsWithCsv (f : String) : Bool := ".csv".data.isSuffixOf f.data

/-- `_list_past_session_files` (analytics.py lines 10-27): returns the
names of ALL ".csv" files found in the sessions directory; the
directory listing is a parameter of the embedding. There is no filter
against the active session's own file. -/
def list_past_session_files (dirListing : List String) : List String :=
  dirListing.filter (fun f => endsWithCsv f)

/-- A loaded pandas DataFrame: column names plus data rows. -/
structure DataFrame where
  columns : List String
  rows : List (List Cell)
deriving DecidableEq, Repr

/-- `df[col]` on a DataFrame: the series of the named column, or a
KeyError (Except.error) when the column is absent. -/
def getColumn (df : DataFrame) (col : String) : Except String (List Cell) :=
  match df.columns.findIdx? (fun c => c = col) with
  | none => Except.error ("KeyError: " ++ col)
  | some i => Except.ok (df.rows.filterMap (fun r => r.get? i))

/-- `.mean()` of a series: the mean of its numeric entries (0 when the
series has none). -/
def seriesMean (s : List Cell) : ℚ :=
  let vals := s.filterMap (fun c => match c with
    | Cell.num q => some q
    | Cell.nat n => some (n : ℚ)
    | _ => none)
  if vals.length = 0 then 0 else vals.sum / (vals.length : ℚ)

/-- The comparison block of show_analytics (analytics.py lines 75-81):
`prev_rec = prev_df["Confidence_Yes"].mean() if not prev_df.empty else
0.0`, likewise for the current session, then the delta. The emptiness
guard does not guard against a missing column: on a non-empty frame the
column access itself can raise KeyError and abort the view. -/
def comparisonMeans (prev_df current_df : DataFrame) :
    Except String (ℚ × ℚ × ℚ) := do
  let prev_rec ←
    if prev_df.rows.isEmpty then Except.ok (0 : ℚ)
    else do
      let col ← getColumn prev_df "Confidence_Yes"
      Except.ok (seriesMean col)
  let curr_rec ←
    if current_df.rows.isEmpty then Except.ok (0 : ℚ)
    else do
      let col ← getColumn current_df "Confidence_Yes"
      Except.ok (seriesMean col)
  Except.ok (prev_rec, curr_rec, curr_rec - prev_rec)

end Thyroid

namespace Thyroid

/-- C1: on `confidence_yes ∈ [0,1]` and `high_risk ∈ {0,1}`, the decision
policy yields "Recurrence Likely" exactly when `conf_yes ≥ 0.5` or
(`conf_yes ≥ 0.35` and `high_risk = 1`); otherwise "Borderline" exactly
when `0.30 < conf_yes < 0.50`; otherwise "No Recurrence Expected".
In particular the Likely branch takes precedence over Borderline on
`high_risk = 1`, `conf_yes ∈ [0.35, 0.50)`, and `conf_yes = 0.5` yields
"Recurrence Likely" regardless of `high_risk`. -/
theorem decisionPolicy_cases (c : ℚ) (hr : ℕ)
    (hc0 : 0 ≤ c) (hc1 : c ≤ 1) (hhr : hr = 0 ∨ hr = 1) :
    ((decisionPolicy c hr = Outcome.recurrenceLikely ↔
        (1/2 ≤ c ∨ (35/100 ≤ c ∧ hr = 1)))
  ∧ (decisionPolicy c hr = Outcome.borderline ↔
        (¬(1/2 ≤ c ∨ (35/100 ≤ c ∧ hr = 1)) ∧ 30/100 < c ∧ c < 50/100))
  ∧ (decisionPolicy c hr = Outcome.noRecurrenceExpected ↔
        (¬(1/2 ≤ c ∨ (35/100 ≤ c ∧ hr = 1)) ∧
         ¬(30/100 < c ∧ c < 50/100))))
  ∧ (hr = 1 → 35/100 ≤ c → c < 1/2 →
        decisionPolicy c hr = Outcome.recurrenceLikely)
  ∧ (c = 1/2 → decisionPolicy c hr = Outcome.recurrenceLikely) := by
  refine ⟨⟨?_, ?_, ?_⟩, ?_, ?_⟩ <;> unfold decisionPolicy
  · split_ifs with hA hB
    · exact iff_of_true rfl hA
    · exact iff_of_false (by decide) hA
    · exact iff_of_false (by decide) hA
  · split_ifs with hA hB
    · exact iff_of_false (by decide) (fun h => h.1 hA)
    · exact iff_of_true rfl ⟨hA, hB⟩
    · exact iff_of_false (by decide) (fun h => hB h.2)
  · split_ifs with hA hB
    · exact iff_of_false (by decide) (fun h => h.1 hA)
    · exact iff_of_false (by decide) (fun h => h.2 hB)
    · exact iff_of_true rfl ⟨hA, hB⟩
  · intro h1 h2 h3
    rw [if_pos (Or.inr ⟨h2, h1⟩)]
  · intro h
    subst h
    rw [if_pos (Or.inl le_rfl)]

/-- Witness for `decisionPolicy_cases` at `conf_yes = 0.4`, `high_risk = 1`:
the Likely branch takes the tie-break. -/
theorem decisionPolicy_cases_witness :
    decisionPolicy (40/100) 1 = Outcome.recurrenceLikely := by
  have h := decisionPolicy_cases (40/100) 1 (by norm_num) (by norm_num)
    (Or.inr rfl)
  exact h.2.1 rfl (by norm_num) (by norm_num)

/-- C2: the high-risk flag is 1 iff the overall stage is "IVA" or "IVB"
or the metastasis status is "M1", and 0 otherwise; it is a function of
the two raw strings alone (the model's probabilities are not inputs). -/
theorem is_high_risk_iff (stage m : String) :
    (is_high_risk stage m = 1 ↔ (stage = "IVA" ∨ stage = "IVB" ∨ m = "M1"))
  ∧ (is_high_risk stage m = 0 ↔
      ¬(stage = "IVA" ∨ stage = "IVB" ∨ m = "M1")) := by
  unfold is_high_risk
  split_ifs with h <;> simp_all <;> tauto

/-- Witness for `is_high_risk_iff`: stage "IVA" with no metastasis is
flagged high-risk. -/
theorem is_high_risk_iff_witness : is_high_risk "IVA" "M0" = 1 :=
  (is_high_risk_iff "IVA" "M0").1.mpr (Or.inl rfl)

/-- Looking a value up in a table whose codes are `off, off+1, ...`
yields `off` plus the value's position among the keys. -/
theorem encode_eq_idx_aux (val : String) (m : List (String × ℕ)) :
    ∀ off : ℕ, m.map Prod.snd = List.range' off m.length →
      val ∈ keysOf m →
      encode val m = some (off + idxIn val (keysOf m)) := by
  induction m with
  | nil => intro off _ hmem; simp [keysOf] at hmem
  | cons p t ih =>
      obtain ⟨k, c⟩ := p
      intro off hv hmem
      simp only [List.map_cons, List.length_cons, List.range'_succ] at hv
      injection hv with hc ht
      by_cases hk : val = k
      · subst hk
        subst hc
        simp [encode, keysOf, idxIn]
      · have hmem2 : val ∈ keysOf t := by
          simp [keysOf] at hmem ⊢
          rcases hmem with h | h
          · exact absurd h hk
          · exact h
        have hrec := ih (off + 1) ht hmem2
        simp [encode, hk, keysOf, idxIn, hrec]
        omega

/-- A value in a canonically numbered table (codes 0,1,2,… in key
order) is encoded to its index in the enumeration. -/
theorem encode_eq_idx (val : String) (m : List (String × ℕ))
    (hv : m.map Prod.snd = List.range m.length) (hmem : val ∈ keysOf m) :
    encode val m = some (idxIn val (keysOf m)) := by
  have h := encode_eq_idx_aux val m 0
    (by rw [hv]; exact List.range_eq_range' m.length) hmem
  simpa using h

/-- A value outside the enumeration fails the lookup (KeyError). -/
theorem encode_not_mem (val : String) (m : List (String × ℕ))
    (h : val ∉ keysOf m) : encode val m = none := by
  induction m with
  | nil => rfl
  | cons p t ih =>
      obtain ⟨k, c⟩ := p
      simp only [keysOf, List.map_cons, List.mem_cons, not_or] at h
      have ht : val ∉ keysOf t := by simpa [keysOf] using h.2
      simp [encode, h.1, ih ht]

/-- A successful lookup implies membership in the enumeration. -/
theorem mem_of_encode_eq_some (val : String) (m : List (String × ℕ)) :
    ∀ c : ℕ, encode val m = some c → val ∈ keysOf m := by
  induction m with
  | nil => intro c h; simp [encode] at h
  | cons p t ih =>
      obtain ⟨k, c0⟩ := p
      intro c h
      by_cases hk : val = k
      · simp [keysOf, hk]
      · simp only [encode, if_neg hk] at h
        simp only [keysOf, List.map_cons, List.mem_cons]
        exact Or.inr (ih c h)

/-- A value in the enumeration is mapped to its associated code. -/
theorem encode_mem_assoc (val : String) (m : List (String × ℕ))
    (hmem : val ∈ keysOf m) :
    ∃ c, encode val m = some c ∧ (val, c) ∈ m := by
  induction m with
  | nil => simp [keysOf] at hmem
  | cons p t ih =>
      obtain ⟨k, c0⟩ := p
      by_cases hk : val = k
      · subst hk
        exact ⟨c0, by simp [encode], by simp⟩
      · have hmem2 : val ∈ keysOf t := by
          simp [keysOf, hk] at hmem
          simpa [keysOf] using hmem
        obtain ⟨c, hc, hcm⟩ := ih hmem2
        exact ⟨c, by simp [encode, hk, hc], by simp [hcm]⟩

/-- If the whole row encodes, every field was in its enumeration. -/
theorem encodePairs_sound (l : List (String × List (String × ℕ))) :
    ∀ cs, encodePairs l = some cs → ∀ p ∈ l, p.1 ∈ keysOf p.2 := by
  induction l with
  | nil => intro cs _ p hp; simp at hp
  | cons q t ih =>
      obtain ⟨v, m⟩ := q
      intro cs h p hp
      cases he : encode v m with
      | none => simp [encodePairs, he] at h
      | some c =>
          cases hrest : encodePairs t with
          | none => simp [encodePairs, he, hrest] at h
          | some cs2 =>
              rcases List.mem_cons.mp hp with rfl | hm
              · exact mem_of_encode_eq_some v m c he
              · exact ih cs2 hrest p hm

/-- A fully encoded row certifies that the form was valid. -/
theorem validForm_of_encoded_row (v : FormValues) (r : List ℕ)
    (h : encoded_row v = some r) : ValidForm v := by
  obtain ⟨cs, hcs⟩ : ∃ cs, encodePairs (fieldTable v) = some cs := by
    cases hc : encodePairs (fieldTable v) with
    | none => rw [encoded_row, hc] at h; simp at h
    | some cs => exact ⟨cs, rfl⟩
  have hs := encodePairs_sound (fieldTable v) cs hcs
  exact ⟨hs (v.gender, GENDER_MAP) (by simp [fieldTable]),
    hs (v.smoking, YN_MAP) (by simp [fieldTable]),
    hs (v.hx_smoking, YN_MAP) (by simp [fieldTable]),
    hs (v.hx_radiotherapy, YN_MAP) (by simp [fieldTable]),
    hs (v.thyroid_func, THYROID_FUNC_MAP) (by simp [fieldTable]),
    hs (v.physical_exam, PHYSICAL_EXAM_MAP) (by simp [fieldTable]),
    hs (v.adenopathy, ADENOPATHY_MAP) (by simp [fieldTable]),
    hs (v.pathology, PATHOLOGY_MAP) (by simp [fieldTable]),
    hs (v.focality, FOCALITY_MAP) (by simp [fieldTable]),
    hs (v.risk, RISK_MAP) (by simp [fieldTable]),
    hs (v.T, T_MAP) (by simp [fieldTable]),
    hs (v.N, N_MAP) (by simp [fieldTable]),
    hs (v.M, M_MAP) (by simp [fieldTable]),
    hs (v.stage, STAGE_MAP) (by simp [fieldTable]),
    hs (v.response, RESPONSE_MAP) (by simp [fieldTable])⟩

/-- C3: for every valid form, the encoder yields exactly 16 numeric
entries: the raw age first, then the fifteen categorical fields in the
fixed trained order, each equal to the index of the chosen value in its
enumeration. -/
theorem encoded_row_spec (v : FormValues) (hv : ValidForm v) :
    encoded_row v = some
      [v.age,
       idxIn v.gender (keysOf GENDER_MAP),
       idxIn v.smoking (keysOf YN_MAP),
       idxIn v.hx_smoking (keysOf YN_MAP),
       idxIn v.hx_radiotherapy (keysOf YN_MAP),
       idxIn v.thyroid_func (keysOf THYROID_FUNC_MAP),
       idxIn v.physical_exam (keysOf PHYSICAL_EXAM_MAP),
       idxIn v.adenopathy (keysOf ADENOPATHY_MAP),
       idxIn v.pathology (keysOf PATHOLOGY_MAP),
       idxIn v.focality (keysOf FOCALITY_MAP),
       idxIn v.risk (keysOf RISK_MAP),
       idxIn v.T (keysOf T_MAP),
       idxIn v.N (keysOf N_MAP),
       idxIn v.M (keysOf M_MAP),
       idxIn v.stage (keysOf STAGE_MAP),
       idxIn v.response (keysOf RESPONSE_MAP)]
    ∧ (encoded_row v).map List.length = some 16 := by
  obtain ⟨h1, h2, h3, h4, h5, h6, h7, h8, h9, h10, h11, h12, h13, h14,
    h15⟩ := hv
  have e1 := encode_eq_idx _ GENDER_MAP (by decide) h1
  have e2 := encode_eq_idx _ YN_MAP (by decide) h2
  have e3 := encode_eq_idx _ YN_MAP (by decide) h3
  have e4 := encode_eq_idx _ YN_MAP (by decide) h4
  have e5 := encode_eq_idx _ THYROID_FUNC_MAP (by decide) h5
  have e6 := encode_eq_idx _ PHYSICAL_EXAM_MAP (by decide) h6
  have e7 := encode_eq_idx _ ADENOPATHY_MAP (by decide) h7
  have e8 := encode_eq_idx _ PATHOLOGY_MAP (by decide) h8
  have e9 := encode_eq_idx _ FOCALITY_MAP (by decide) h9
  have e10 := encode_eq_idx _ RISK_MAP (by decide) h10
  have e11 := encode_eq_idx _ T_MAP (by decide) h11
  have e12 := encode_eq_idx _ N_MAP (by decide) h12
  have e13 := encode_eq_idx _ M_MAP (by decide) h13
  have e14 := encode_eq_idx _ STAGE_MAP (by decide) h14
  have e15 := encode_eq_idx _ RESPONSE_MAP (by decide) h15
  have hrow : encoded_row v = some
      [v.age,
       idxIn v.gender (keysOf GENDER_MAP),
       idxIn v.smoking (keysOf YN_MAP),
       idxIn v.hx_smoking (keysOf YN_MAP),
       idxIn v.hx_radiotherapy (keysOf YN_MAP),
       idxIn v.thyroid_func (keysOf THYROID_FUNC_MAP),
       idxIn v.physical_exam (keysOf PHYSICAL_EXAM_MAP),
       idxIn v.adenopathy (keysOf ADENOPATHY_MAP),
       idxIn v.pathology (keysOf PATHOLOGY_MAP),
       idxIn v.focality (keysOf FOCALITY_MAP),
       idxIn v.risk (keysOf RISK_MAP),
       idxIn v.T (keysOf T_MAP),
       idxIn v.N (keysOf N_MAP),
       idxIn v.M (keysOf M_MAP),
       idxIn v.stage (keysOf STAGE_MAP),
       idxIn v.response (keysOf RESPONSE_MAP)] := by
    simp [encoded_row, fieldTable, encodePairs,
      e1, e2, e3, e4, e5, e6, e7, e8, e9, e10, e11, e12, e13, e14, e15]
  exact ⟨hrow, by rw [hrow]; rfl⟩

/-- Witness for `encoded_row_spec` at the demo defaults: a valid form
whose encoded row has 16 entries. -/
theorem encoded_row_spec_witness :
    ValidForm ⟨"", 25, "F", "No", "No", "No", "Euthyroid", "Normal",
      "No", "Papillary", "Uni-Focal", "Low", "T1a", "N0", "M0", "I",
      "Excellent"⟩
  ∧ (encoded_row ⟨"", 25, "F", "No", "No", "No", "Euthyroid", "Normal",
      "No", "Papillary", "Uni-Focal", "Low", "T1a", "N0", "M0", "I",
      "Excellent"⟩).map List.length = some 16 :=
  ⟨by unfold ValidForm; decide,
   (encoded_row_spec _ (by unfold ValidForm; decide)).2⟩

/-- C8: a value in its enumeration is encoded to its associated code; a
value outside fails with a lookup error (`none`), the failure is never
recovered, and the whole prediction aborts with the session history
unchanged: no record is appended. -/
theorem encode_contract (val : String) (m : List (String × ℕ))
    (inp : PredictInputs) (history : List Record) :
    (val ∈ keysOf m → ∃ c, encode val m = some c ∧ (val, c) ∈ m)
  ∧ (val ∉ keysOf m → encode val m = none)
  ∧ (¬ ValidForm inp.raw →
      encoded_row inp.raw = none ∧
      predictSession inp history = (none, history)) := by
  refine ⟨encode_mem_assoc val m, encode_not_mem val m, ?_⟩
  intro hnv
  have hnone : encoded_row inp.raw = none := by
    cases hrow : encoded_row inp.raw with
    | none => rfl
    | some r => exact absurd (validForm_of_encoded_row _ _ hrow) hnv
  exact ⟨hnone, by simp [predictSession, hnone]⟩

/-- Witness for `encode_contract`: an invalid stage value empties the
whole encoding and leaves the history unchanged. -/
theorem encode_contract_witness :
    (¬ ValidForm ⟨"", 25, "F", "No", "No", "No", "Euthyroid", "Normal",
      "No", "Papillary", "Uni-Focal", "Low", "T1a", "N0", "M0",
      "Stage 9", "Excellent"⟩)
  ∧ (encoded_row ⟨"", 25, "F", "No", "No", "No", "Euthyroid", "Normal",
      "No", "Papillary", "Uni-Focal", "Low", "T1a", "N0", "M0",
      "Stage 9", "Excellent"⟩ = none ∧
     predictSession
       ⟨1/2, 1/2,
        ⟨"", 25, "F", "No", "No", "No", "Euthyroid", "Normal", "No",
         "Papillary", "Uni-Focal", "Low", "T1a", "N0", "M0", "Stage 9",
         "Excellent"⟩,
        ⟨false, "English", "Female"⟩, NarrationOutcome.success,
        "sid", "ts"⟩ [] = (none, [])) :=
  ⟨by unfold ValidForm; decide,
   (encode_contract "Stage 9" STAGE_MAP
     ⟨1/2, 1/2,
      ⟨"", 25, "F", "No", "No", "No", "Euthyroid", "Normal", "No",
       "Papillary", "Uni-Focal", "Low", "T1a", "N0", "M0", "Stage 9",
       "Excellent"⟩,
      ⟨false, "English", "Female"⟩, NarrationOutcome.success,
      "sid", "ts"⟩ []).2.2 (by unfold ValidForm; decide)⟩

/-- `roundHalfEven` written with `Int.fract`. -/
theorem roundHalfEven_eq_cases (y : ℚ) :
    roundHalfEven y =
      if Int.fract y < 1/2 then ⌊y⌋
      else if 1/2 < Int.fract y then ⌊y⌋ + 1
      else if ⌊y⌋ % 2 = 0 then ⌊y⌋ else ⌊y⌋ + 1 := by
  simp only [roundHalfEven, Int.fract]

/-- Rounding moves by at most one from the floor. -/
theorem roundHalfEven_bounds (y : ℚ) :
    ⌊y⌋ ≤ roundHalfEven y ∧ roundHalfEven y ≤ ⌊y⌋ + 1 := by
  unfold roundHalfEven
  split_ifs <;> omega

/-- A nonnegative argument rounds to a nonnegative integer. -/
theorem roundHalfEven_nonneg (y : ℚ) (h : 0 ≤ y) :
    0 ≤ roundHalfEven y := by
  have h1 : 0 ≤ ⌊y⌋ := Int.floor_nonneg.mpr h
  have h2 := (roundHalfEven_bounds y).1
  omega

/-- An argument at most 100 rounds to at most 100. -/
theorem roundHalfEven_le_hundred (y : ℚ) (h : y ≤ 100) :
    roundHalfEven y ≤ 100 := by
  have hfl : ⌊y⌋ ≤ 100 := by
    have h100 : ⌊(100 : ℚ)⌋ = 100 := by norm_num
    calc ⌊y⌋ ≤ ⌊(100 : ℚ)⌋ := Int.floor_le_floor h
      _ = 100 := h100
  rw [roundHalfEven_eq_cases]
  split_ifs with ha hb hc
  · exact hfl
  · -- fract y > 1/2, so ⌊y⌋ ≤ 99
    have hup : (⌊y⌋ : ℚ) + 1/2 < y := by
      have := Int.floor_add_fract y
      linarith
    have : (⌊y⌋ : ℚ) < 100 - 1/2 := by linarith
    have : ⌊y⌋ ≤ 99 := by
      by_contra hcon
      push_neg at hcon
      have : ((100 : ℤ) : ℚ) ≤ (⌊y⌋ : ℚ) := by exact_mod_cast hcon
      norm_num at this
      linarith
    omega
  · exact hfl
  · -- fract y = 1/2 tie, so ⌊y⌋ ≤ 99
    have heq : Int.fract y = 1/2 := le_antisymm (not_lt.mp hb) (not_lt.mp ha)
    have hup : (⌊y⌋ : ℚ) + 1/2 = y := by
      have := Int.floor_add_fract y
      rw [heq] at this
      linarith
    have : (⌊y⌋ : ℚ) ≤ 100 - 1/2 := by linarith
    have : ⌊y⌋ ≤ 99 := by
      by_contra hcon
      push_neg at hcon
      have : ((100 : ℤ) : ℚ) ≤ (⌊y⌋ : ℚ) := by exact_mod_cast hcon
      norm_num at this
      linarith
    omega

/-- Rounding `y` and its complement to 100 gives exactly 100: ties land
on opposite parities, so banker's rounding splits them one up, one
down. -/
theorem roundHalfEven_add_compl (y : ℚ) :
    roundHalfEven y + roundHalfEven (100 - y) = 100 := by
  rw [roundHalfEven_eq_cases, roundHalfEven_eq_cases]
  have hsum := Int.floor_add_fract y
  rcases eq_or_ne (Int.fract y) 0 with hf | hf
  · -- y is an integer
    have hy : y = (⌊y⌋ : ℚ) := by rw [hf, add_zero] at hsum; linarith
    have hfloor : ⌊100 - y⌋ = 100 - ⌊y⌋ := by
      rw [hy, show ((100 : ℚ) - (⌊y⌋ : ℚ)) = ((100 - ⌊y⌋ : ℤ) : ℚ) by
        push_cast; ring]
      exact Int.floor_intCast _
    have hf2 : Int.fract (100 - y) = 0 := by
      simp only [Int.fract, hfloor]
      push_cast
      linarith
    rw [hf, hf2, if_pos (by norm_num : (0:ℚ) < 1/2),
      if_pos (by norm_num : (0:ℚ) < 1/2), hfloor]
    omega
  · -- y is not an integer: 0 < fract y < 1
    have hpos : 0 < Int.fract y :=
      lt_of_le_of_ne (Int.fract_nonneg y) (Ne.symm hf)
    have hlt : Int.fract y < 1 := Int.fract_lt_one y
    have hfloor : ⌊100 - y⌋ = 99 - ⌊y⌋ := by
      rw [Int.floor_eq_iff]
      constructor
      · push_cast
        linarith
      · push_cast
        linarith
    have hf2 : Int.fract (100 - y) = 1 - Int.fract y := by
      simp only [Int.fract, hfloor]
      push_cast
      ring
    rw [hfloor, hf2]
    rcases lt_trichotomy (Int.fract y) (1/2) with h1 | h1 | h1 <;>
      split_ifs <;> first
        | omega
        | linarith

/-- Rounding changes the value by at most 1/2. -/
theorem roundHalfEven_close (y : ℚ) :
    |(roundHalfEven y : ℚ) - y| ≤ 1/2 := by
  rw [roundHalfEven_eq_cases]
  have h0 := Int.fract_nonneg y
  have h1 := Int.fract_lt_one y
  have hsum := Int.floor_add_fract y
  rw [abs_le]
  split_ifs with ha hb hc <;> constructor <;> push_cast <;> linarith

/-- `round(x, 2)` keeps a nonnegative value nonnegative. -/
theorem pyRound2_nonneg (x : ℚ) (h : 0 ≤ x) : 0 ≤ pyRound2 x := by
  unfold pyRound2
  have hr : (0 : ℤ) ≤ roundHalfEven (x * 100) :=
    roundHalfEven_nonneg _ (by positivity)
  have : (0 : ℚ) ≤ (roundHalfEven (x * 100) : ℚ) := by exact_mod_cast hr
  linarith

/-- `round(x, 2)` keeps a value at most 1 at most 1. -/
theorem pyRound2_le_one (x : ℚ) (h : x ≤ 1) : pyRound2 x ≤ 1 := by
  unfold pyRound2
  have hr : roundHalfEven (x * 100) ≤ 100 :=
    roundHalfEven_le_hundred _ (by linarith)
  have : (roundHalfEven (x * 100) : ℚ) ≤ 100 := by exact_mod_cast hr
  linarith

/-- Rounding two complementary probabilities to 2 decimals preserves
their sum of exactly 1. -/
theorem pyRound2_add_compl (cn cy : ℚ) (hsum : cn + cy = 1) :
    pyRound2 cn + pyRound2 cy = 1 := by
  unfold pyRound2
  have hy : cy * 100 = 100 - cn * 100 := by linarith
  rw [hy, div_add_div_same,
    show ((roundHalfEven (cn * 100) : ℚ) +
        (roundHalfEven (100 - cn * 100) : ℚ)) =
      ((roundHalfEven (cn * 100) + roundHalfEven (100 - cn * 100) : ℤ) : ℚ)
      by push_cast; ring,
    roundHalfEven_add_compl (cn * 100)]
  norm_num

/-- `round(x, 2)` moves the value by at most 1/200. -/
theorem pyRound2_close (x : ℚ) : |pyRound2 x - x| ≤ 1/200 := by
  have h := roundHalfEven_close (x * 100)
  unfold pyRound2
  rw [show (roundHalfEven (x * 100) : ℚ) / 100 - x =
      ((roundHalfEven (x * 100) : ℚ) - x * 100) / 100 by ring,
    abs_div, show |(100 : ℚ)| = 100 by norm_num]
  linarith

/-- C4: for complementary model probabilities in [0,1], the stored
values `round(conf_no, 2)` and `round(conf_yes, 2)` are each in [0,1]
and sum to exactly 1. -/
theorem rounded_confidences (cn cy : ℚ)
    (h0n : 0 ≤ cn) (h1n : cn ≤ 1) (h0y : 0 ≤ cy) (h1y : cy ≤ 1)
    (hsum : cn + cy = 1) :
    0 ≤ pyRound2 cn ∧ pyRound2 cn ≤ 1
  ∧ 0 ≤ pyRound2 cy ∧ pyRound2 cy ≤ 1
  ∧ pyRound2 cn + pyRound2 cy = 1 :=
  ⟨pyRound2_nonneg cn h0n, pyRound2_le_one cn h1n,
   pyRound2_nonneg cy h0y, pyRound2_le_one cy h1y,
   pyRound2_add_compl cn cy hsum⟩

/-- Witness for `rounded_confidences` at conf_no = 0.125,
conf_yes = 0.875. -/
theorem rounded_confidences_witness :
    (0 ≤ (1/8 : ℚ) ∧ (1/8 : ℚ) ≤ 1 ∧ 0 ≤ (7/8 : ℚ) ∧ (7/8 : ℚ) ≤ 1
      ∧ (1/8 : ℚ) + 7/8 = 1)
  ∧ (0 ≤ pyRound2 (1/8) ∧ pyRound2 (1/8) ≤ 1
      ∧ 0 ≤ pyRound2 (7/8) ∧ pyRound2 (7/8) ≤ 1
      ∧ pyRound2 (1/8) + pyRound2 (7/8) = 1) :=
  ⟨by norm_num,
   rounded_confidences (1/8) (7/8) (by norm_num) (by norm_num)
     (by norm_num) (by norm_num) (by norm_num)⟩

/-- Serializing one record and parsing it back is the identity. -/
theorem parseRow_recordToRow (r : Record) :
    parseRow (recordToRow r) = some r := rfl

/-- Serializing all records and parsing them back is the identity. -/
theorem parseRows_map (l : List Record) :
    parseRows (l.map recordToRow) = some l := by
  induction l with
  | nil => rfl
  | cons r t ih => simp [parseRows, parseRow_recordToRow, ih]

/-- C5: persisting a non-empty history of N records writes one header
row in the fixed schema order plus exactly N data rows, rewriting the
file whole; loading that file back reproduces every record, and in
particular the stored confidences, which sit within 1/200 of the
original full-precision values (the 2-decimal rounding loss). -/
theorem history_persistence (history : List Record) (hne : history ≠ []) :
    (∃ csv, save_history_to_csv history = some csv
      ∧ csv.length = history.length + 1
      ∧ csv.head? = some (csvHeader.map Cell.str)
      ∧ loadHistory csv = some history)
  ∧ (∀ x : ℚ, |pyRound2 x - x| ≤ 1/200) := by
  refine ⟨⟨(csvHeader.map Cell.str) :: history.map recordToRow,
    ?_, ?_, ?_, ?_⟩, fun x => pyRound2_close x⟩
  · simp [save_history_to_csv, hne]
  · simp
  · rfl
  · simp [loadHistory, parseRows_map]

/-- Witness for `history_persistence` on a one-record history. -/
theorem history_persistence_witness :
    (([⟨"abc123", "2025-01-01 10:00:00", "Alice", 1/4, 3/4,
        "✔️ Recurrence Likely", "High", 1⟩] : List Record) ≠ [])
  ∧ ((∃ csv, save_history_to_csv
        [⟨"abc123", "2025-01-01 10:00:00", "Alice", 1/4, 3/4,
          "✔️ Recurrence Likely", "High", 1⟩] = some csv
      ∧ csv.length =
          ([⟨"abc123", "2025-01-01 10:00:00", "Alice", 1/4, 3/4,
            "✔️ Recurrence Likely", "High", 1⟩] : List Record).length + 1
      ∧ csv.head? = some (csvHeader.map Cell.str)
      ∧ loadHistory csv = some
          [⟨"abc123", "2025-01-01 10:00:00", "Alice", 1/4, 3/4,
            "✔️ Recurrence Likely", "High", 1⟩])
    ∧ (∀ x : ℚ, |pyRound2 x - x| ≤ 1/200)) :=
  ⟨List.cons_ne_nil _ _, history_persistence _ (List.cons_ne_nil _ _)⟩

/-- C9: the try/except around the narration body turns every failure
into a logged message instead of an exception, and the prediction
label, the appended history and the persisted file are the same function
of the inputs whatever the narration settings or outcome are. -/
theorem narration_isolated (inp : PredictInputs) (history : List Record)
    (cfg cfg2 : NarrationConfig) (oc oc2 : NarrationOutcome) (e : String)
    (hfail : narrationBody oc = Except.error e) :
    narrate_result oc = some ("Narration error: " ++ e)
  ∧ narrate_result NarrationOutcome.success = none
  ∧ (run_prediction
        { inp with narrationCfg := cfg, narrationOutcome := oc }
        history).result =
      (run_prediction
        { inp with narrationCfg := cfg2, narrationOutcome := oc2 }
        history).result
  ∧ (run_prediction
        { inp with narrationCfg := cfg, narrationOutcome := oc }
        history).history =
      (run_prediction
        { inp with narrationCfg := cfg2, narrationOutcome := oc2 }
        history).history
  ∧ (run_prediction
        { inp with narrationCfg := cfg, narrationOutcome := oc }
        history).savedFile =
      (run_prediction
        { inp with narrationCfg := cfg2, narrationOutcome := oc2 }
        history).savedFile := by
  refine ⟨?_, rfl, rfl, rfl, rfl⟩
  simp [narrate_result, hfail]

/-- Witness for `narration_isolated`: a failed narration is logged and
changes nothing about a concrete prediction. -/
theorem narration_isolated_witness :
    narrationBody (NarrationOutcome.failure "no audio device") =
      Except.error "no audio device"
  ∧ (narrate_result (NarrationOutcome.failure "no audio device") =
      some ("Narration error: " ++ "no audio device")
    ∧ narrate_result NarrationOutcome.success = none
    ∧ (run_prediction
        { (⟨1/4, 3/4,
            ⟨"", 25, "F", "No", "No", "No", "Euthyroid", "Normal", "No",
             "Papillary", "Uni-Focal", "Low", "T1a", "N0", "M0", "I",
             "Excellent"⟩,
            ⟨false, "English", "Female"⟩, NarrationOutcome.success,
            "sid", "ts"⟩ : PredictInputs) with
          narrationCfg := ⟨true, "English", "Male"⟩,
          narrationOutcome := NarrationOutcome.failure "no audio device" }
        []).result =
      (run_prediction
        { (⟨1/4, 3/4,
            ⟨"", 25, "F", "No", "No", "No", "Euthyroid", "Normal", "No",
             "Papillary", "Uni-Focal", "Low", "T1a", "N0", "M0", "I",
             "Excellent"⟩,
            ⟨false, "English", "Female"⟩, NarrationOutcome.success,
            "sid", "ts"⟩ : PredictInputs) with
          narrationCfg := ⟨false, "Hindi", "Female"⟩,
          narrationOutcome := NarrationOutcome.success }
        []).result
    ∧ (run_prediction
        { (⟨1/4, 3/4,
            ⟨"", 25, "F", "No", "No", "No", "Euthyroid", "Normal", "No",
             "Papillary", "Uni-Focal", "Low", "T1a", "N0", "M0", "I",
             "Excellent"⟩,
            ⟨false, "English", "Female"⟩, NarrationOutcome.success,
            "sid", "ts"⟩ : PredictInputs) with
          narrationCfg := ⟨true, "English", "Male"⟩,
          narrationOutcome := NarrationOutcome.failure "no audio device" }
        []).history =
      (run_prediction
        { (⟨1/4, 3/4,
            ⟨"", 25, "F", "No", "No", "No", "Euthyroid", "Normal", "No",
             "Papillary", "Uni-Focal", "Low", "T1a", "N0", "M0", "I",
             "Excellent"⟩,
            ⟨false, "English", "Female"⟩, NarrationOutcome.success,
            "sid", "ts"⟩ : PredictInputs) with
          narrationCfg := ⟨false, "Hindi", "Female"⟩,
          narrationOutcome := NarrationOutcome.success }
        []).history
    ∧ (run_prediction
        { (⟨1/4, 3/4,
            ⟨"", 25, "F", "No", "No", "No", "Euthyroid", "Normal", "No",
             "Papillary", "Uni-Focal", "Low", "T1a", "N0", "M0", "I",
             "Excellent"⟩,
            ⟨false, "English", "Female"⟩, NarrationOutcome.success,
            "sid", "ts"⟩ : PredictInputs) with
          narrationCfg := ⟨true, "English", "Male"⟩,
          narrationOutcome := NarrationOutcome.failure "no audio device" }
        []).savedFile =
      (run_prediction
        { (⟨1/4, 3/4,
            ⟨"", 25, "F", "No", "No", "No", "Euthyroid", "Normal", "No",
             "Papillary", "Uni-Focal", "Low", "T1a", "N0", "M0", "I",
             "Excellent"⟩,
            ⟨false, "English", "Female"⟩, NarrationOutcome.success,
            "sid", "ts"⟩ : PredictInputs) with
          narrationCfg := ⟨false, "Hindi", "Female"⟩,
          narrationOutcome := NarrationOutcome.success }
        []).savedFile) :=
  ⟨rfl, narration_isolated _ [] _ _ _ _ "no audio device" rfl⟩

/-- C10: the appended record's Name is the entered string when the name
field is non-empty, and "Patient k" with k = (records already in the
session history) + 1 when it is empty. -/
theorem record_name_default (inp : PredictInputs) (history : List Record) :
    ((run_prediction inp history).history.getLast?).map Record.name =
      some (if inp.raw.name = ""
            then "Patient " ++ toString (history.length + 1)
            else inp.raw.name) := by
  simp [run_prediction, mkRow, List.getLast?_concat]

/-- C6 as claimed is false: the listing does NOT exclude the active
session's file — a directory holding only the active session's own csv
file still returns that very file. -/
theorem list_past_sessions_includes_active :
    "session_2025-01-01_10-00.csv" ∈
      list_past_session_files ["session_2025-01-01_10-00.csv"] := by
  decide

/-- C6 (amended): the listing returns exactly the ".csv"-named entries
of the sessions directory, with no exclusion of the active session's
file. -/
theorem list_past_session_files_spec (listing : List String) (f : String) :
    f ∈ list_past_session_files listing ↔
      f ∈ listing ∧ endsWithCsv f = true := by
  simp [list_past_session_files, List.mem_filter]

/-- Witness for `list_past_session_files_spec` at a two-entry listing. -/
theorem list_past_session_files_spec_witness :
    "a.csv" ∈ list_past_session_files ["a.csv", "notes.txt"] :=
  (list_past_session_files_spec ["a.csv", "notes.txt"] "a.csv").mpr
    (by decide)

/-- C7 is the behavior the spec asks for but not the code's: comparing
against a non-empty persisted file that lacks the Confidence_Yes column
raises KeyError at the mean computation (the emptiness guard does not
cover a missing column), aborting the comparison view instead of
treating the column as an empty series. -/
theorem comparison_missing_column_aborts :
    comparisonMeans
      ⟨["Session ID"], [[Cell.str "abc123"]]⟩
      ⟨csvHeader,
       [recordToRow ⟨"x", "2025-01-01 10:00:00", "Bob", 1/2, 1/2,
          "⚠️ Borderline", "Low", 0⟩]⟩
    = Except.error ("KeyError: " ++ "Confidence_Yes") := rfl

end Thyroid
